import Mathlib

/-!
Shallow embedding of the kubetrbl troubleshooting pipeline
(github.com/caseyhadden/kubetrbl): the generic finite state machine
(fsm/fsm.go) and the diagnostic step handlers of the main package
(getNamespace, getContainerPort, getControllerPods, validateContainerPort).
Side effects that the claims speak about (which callbacks ran, which tunnel
was signalled to stop, which pod was reported reachable) are made explicit
as event traces; terminal printing that carries no decision is dropped.
-/

namespace Kubetrbl

/-! ### Data model

`corev1.ContainerPort` carries a name and a numeric port (int32); the Go
code never does arithmetic on the number, so it is embedded as `Int`.
`corev1.Container` is reduced to its ordered port list, the only field the
embedded code reads.  A deployment (`controller`) contributes its label map
and its template's ordered container list. -/

structure ContainerPort where
  name : String
  containerPort : Int
  deriving DecidableEq, Repr

/-- The Go zero value of `corev1.ContainerPort`: the value `k.containerPort`
holds before `getContainerPort` ever assigns it. -/
def ContainerPort.zero : ContainerPort := ⟨"", 0⟩

structure Container where
  ports : List ContainerPort
  deriving DecidableEq, Repr

/-- `intstr.IntOrString`: a service target port is either numeric or a
symbolic port name.  A numeric value leaves the `StrVal` field at its Go
zero value, the empty string. -/
inductive IntOrString where
  | int (v : Int)
  | str (s : String)
  deriving DecidableEq, Repr

/-- The `StrVal` field read by `getContainerPort`: the string component, or
`""` when the target is numeric (Go struct zero value). -/
def IntOrString.strVal : IntOrString → String
  | .int _ => ""
  | .str s => s

/-- Labels are the `map[string]string` of a Kubernetes object, embedded as
an association list (first binding wins, as Go maps have unique keys). -/
def Labels := List (String × String)

/-- Reading `m[key]` from a Go `map[string]string`: the bound value, or the
zero value `""` when the key is absent. -/
def labelValue (ls : List (String × String)) (key : String) : String :=
  match ls.lookup key with
  | some v => v
  | none => ""

/-- Whether the label map actually carries a binding for `key` (Go code can
not observe this through `m[key]` alone when the value is `""`). -/
def hasLabel (ls : List (String × String)) (key : String) : Bool :=
  (ls.lookup key).isSome

structure Pod where
  name : String
  labels : List (String × String)
  deriving DecidableEq, Repr

structure Controller where
  name : String
  labels : List (String × String)
  containers : List Container
  deriving DecidableEq, Repr

/-- The well-known selector label key used throughout machine.go. -/
def appLabelKey : String := "app.kubernetes.io/name"

/-! ### getContainerPort

```go
func (k *Kubetrbl) getContainerPort() error {
    tgt := k.svcPort.TargetPort.StrVal
    for _, cnt := range k.controller.Spec.Template.Spec.Containers {
        for _, p := range cnt.Ports {
            if tgt == p.Name {
                k.containerPort = p
                break
            }
        }
    }
    fmt.Println("..." + strconv.Itoa(int(k.containerPort.ContainerPort)))
    k.fsm.Change("getControllerPods")
    return nil
}
```

The `break` leaves only the inner loop: per container the first port whose
name equals `tgt` is assigned, and the outer loop keeps scanning, so a later
container's match overwrites an earlier one.  `k.containerPort` starts at
the struct zero value. -/

/-- One outer-loop iteration: the first matching port of this container,
or the accumulator unchanged. -/
def scanContainer (tgt : String) (acc : ContainerPort) (cnt : Container) :
    ContainerPort :=
  match cnt.ports.find? (fun p => tgt == p.name) with
  | some p => p
  | none => acc

def getContainerPort (tgtPort : IntOrString) (containers : List Container) :
    ContainerPort :=
  containers.foldl (scanContainer tgtPort.strVal) ContainerPort.zero

/-- The whole state handler: resolved port, next state name, returned
error.  The Go function unconditionally calls `Change("getControllerPods")`
and returns `nil`. -/
def getContainerPortStep (tgtPort : IntOrString)
    (containers : List Container) : ContainerPort × String × Option String :=
  (getContainerPort tgtPort containers, "getControllerPods", none)

/-! ### getControllerPods

```go
tgt := k.controller.Labels["app.kubernetes.io/name"]
result := []corev1.Pod{}
for _, p := range k.pods.Items {
    pos := p.Labels["app.kubernetes.io/name"]
    if tgt == pos {
        result = append(result, p)
    }
}
k.podList = result
k.fsm.Change("validateContainerPort")
return nil
```
-/

def getControllerPods (controller : Controller) (pods : List Pod) :
    List Pod :=
  let tgt := labelValue controller.labels appLabelKey
  pods.filter (fun p => tgt == labelValue p.labels appLabelKey)

/-- The whole state handler: member pod list, next state name, returned
error.  The Go function always advances to `validateContainerPort` and
returns `nil`, also when the filter result is empty. -/
def getControllerPodsStep (controller : Controller) (pods : List Pod) :
    List Pod × String × Option String :=
  (getControllerPods controller pods, "validateContainerPort", none)

/-! ### getNamespace

```go
func (k *Kubetrbl) getNamespace() error {
    nms, err := ... Namespaces().List(...)
    if err != nil { return err }
    for i, nm := range nms.Items { fmt.Println(...) }
    answer, err := k.readInt()
    if err != nil { return err }
    k.namespace = nms.Items[answer].GetName()
    k.fsm.Change("countPods")
    return nil
}
```

Embedded after the namespace list has been fetched; the read line is
already parsed (`readInt` = `strconv.Atoi` of the trimmed line, which can
fail, and can yield any `int`, negatives included).  `nms.Items[answer]`
with `answer` outside `[0, len)` is a Go slice index out of range: a
runtime panic that crashes the process, not a returned error. -/

inductive ReadIntResult where
  | ok (i : Int)
  | parseError (msg : String)
  deriving DecidableEq, Repr

inductive NamespaceStepResult where
  /-- namespace assigned to the selected name, `Change("countPods")`. -/
  | advanced (selected : String) (next : String)
  /-- the handler returned an error (routed to the FSM error handler). -/
  | inputError (msg : String)
  /-- runtime panic: index out of range on `nms.Items[answer]`. -/
  | panicked
  deriving DecidableEq, Repr

def getNamespace (nms : List String) (input : ReadIntResult) :
    NamespaceStepResult :=
  match input with
  | .parseError m => .inputError m
  | .ok i =>
      if h : 0 ≤ i ∧ i.toNat < nms.length then
        .advanced (nms.get ⟨i.toNat, h.2⟩) "countPods"
      else
        .panicked

/-! ### validateContainerPort

Per candidate pod the handler opens a port-forward tunnel, waits for
readiness, issues one HTTP GET against the forwarded local port, reports,
and closes the stop channel:

```go
for _, pod := range k.podList {
    fmt.Printf("Checking accessibility of port for pod '%s'.\n", pod.Name)
    ... // build request, dialer, portforward.New (acquisition, may fail)
    go func() { doneChan <- pf.ForwardPorts() }()
    <-pf.Ready
    resp, err := http.DefaultClient.Get("http://localhost:8080/internal/metrics")
    if err != nil {
        return err                     // early return: close(stopChan) skipped
    }
    if resp.StatusCode < 400 {
        fmt.Println("✓ Pod port accessible.")
    } else {
        fmt.Println("✗ Pod port inaccessible.")
    }
    close(stopChan)
}
k.fsm.Change("finish")
return nil
```

The probe outcome of each pod (HTTP status, or a transport error from
`Get`) is an input of the embedding; tunnel acquisition
(`rest.RESTClientFor`, `portforward.New`) is assumed to succeed — its
failure paths return before a tunnel exists and are outside these claims.
Events record the externally visible per-pod actions, `close(stopChan)`
included. -/

inductive ProbeResult where
  | status (code : Nat)
  | transportError
  deriving DecidableEq, Repr

inductive PodEvent where
  /-- tunnel opened and probe attempted for this pod ("Checking…"). -/
  | checked (pod : String)
  /-- "✓ Pod port accessible." -/
  | accessible (pod : String)
  /-- "✗ Pod port inaccessible." -/
  | inaccessible (pod : String)
  /-- `close(stopChan)` for this pod's tunnel. -/
  | stopSignaled (pod : String)
  deriving DecidableEq, Repr

/-- One loop iteration: the events it emits, and `true` iff the loop
continues (no early `return err`). -/
def probePod (pod : String) (r : ProbeResult) : List PodEvent × Bool :=
  match r with
  | .status code =>
      ([.checked pod,
        if code < 400 then .accessible pod else .inaccessible pod,
        .stopSignaled pod], true)
  | .transportError =>
      ([.checked pod], false)

/-- The whole loop over the candidate pod list (each pod paired with its
probe outcome): accumulated events, and `true` iff every pod was processed
and the handler reached `Change("finish")` (returning `nil`); `false` when
a probe transport error was propagated as the handler's error. -/
def validateContainerPort : List (String × ProbeResult) →
    List PodEvent × Bool
  | [] => ([], true)
  | (pod, r) :: rest =>
      let step := probePod pod r
      if step.2 then
        let tail := validateContainerPort rest
        (step.1 ++ tail.1, tail.2)
      else
        (step.1, false)

end Kubetrbl

namespace Fsm

/-! ### fsm/fsm.go

```go
type State struct {
    Enter  func() error
    Update func() error
    Exit   func() error
}
type FSM struct {
    State          string
    StateDirectory map[string]State
    ErrorHandler   func(*FSM, error)
}
```

A callback is embedded by what the claims observe of it: present or not,
and failing or not when invoked (`some fails`, or `none` for a nil field).
The error handler is the default of `NewFSM` (print the error), recorded
as an `errorHandled` event; the handler itself neither stops `Change` nor
touches the machine.  A missing directory key read through
`f.StateDirectory[name]` yields the zero `State` (all callbacks nil),
exactly as in Go. -/

structure State where
  enter : Option Bool
  update : Option Bool
  exit : Option Bool
  deriving DecidableEq, Repr

/-- Go zero value of `State`: all three function fields nil. -/
def State.zero : State := ⟨none, none, none⟩

structure FSM where
  state : String
  directory : List (String × State)
  deriving DecidableEq, Repr

/-- `f.StateDirectory[name]`: Go map read with zero value on a miss. -/
def FSM.dirGet (f : FSM) (name : String) : State :=
  (f.directory.lookup name).getD State.zero

/-- `_, hasKey := f.StateDirectory[name]`. -/
def FSM.hasState (f : FSM) (name : String) : Bool :=
  (f.directory.lookup name).isSome

inductive Event where
  /-- the named state's Exit callback was invoked. -/
  | exited (s : String)
  /-- the named state's Enter callback was invoked. -/
  | entered (s : String)
  /-- the named state's Update callback was invoked. -/
  | updated (s : String)
  /-- `f.ErrorHandler(f, err)` ran on a callback failure. -/
  | errorHandled
  /-- "Update() called on FSM without active state." was printed. -/
  | warnedNoActive
  deriving DecidableEq, Repr

/-- Invoke an optional callback bound to state `s`, tagging the invocation
with `mk s` and appending `errorHandled` when the callback fails; skipped
when `cond` is false or the callback is nil. -/
def runCallback (cond : Bool) (cb : Option Bool) (ev : Event) :
    List Event :=
  if cond then
    match cb with
    | some fails => if fails then [ev, .errorHandled] else [ev]
    | none => []
  else []

inductive ChangeResult where
  /-- `Change` returned normally with the machine it left behind. -/
  | ok (f : FSM) (events : List Event)
  /-- `panic("Error!")` on an unregistered target name. -/
  | panicked (events : List Event)
  deriving DecidableEq, Repr

/-
```go
func (f *FSM) Change(stateName string) {
    if f.State != "" && f.StateDirectory[f.State].Exit != nil {
        err := f.StateDirectory[f.State].Exit()
        if err != nil { f.ErrorHandler(f, err) }
    }
    _, hasKey := f.StateDirectory[stateName]
    if !hasKey { fmt.Println(...); panic("Error!") }
    f.State = stateName
    if f.State != "" && f.StateDirectory[f.State].Enter != nil {
        err := f.StateDirectory[f.State].Enter()
        if err != nil { f.ErrorHandler(f, err) }
    }
}
```
-/
def FSM.change (f : FSM) (target : String) : ChangeResult :=
  let evExit :=
    runCallback (f.state ≠ "") (f.dirGet f.state).exit (.exited f.state)
  if f.hasState target then
    let fNew : FSM := { f with state := target }
    let evEnter :=
      runCallback (target ≠ "") (fNew.dirGet target).enter (.entered target)
    .ok fNew (evExit ++ evEnter)
  else
    .panicked evExit

/-
```go
func (f *FSM) Update() {
    if f.State != "" && f.StateDirectory[f.State].Update != nil {
        err := f.StateDirectory[f.State].Update()
        if err != nil { f.ErrorHandler(f, err) }
    } else {
        fmt.Println("Update() called on FSM without active state.")
    }
}
```
`Update` never mutates the machine; its observable behaviour is the event
list alone. -/
def FSM.update (f : FSM) : List Event :=
  if f.state ≠ "" ∧ (f.dirGet f.state).update.isSome then
    runCallback true (f.dirGet f.state).update (.updated f.state)
  else
    [.warnedNoActive]

end Fsm

/-! ## Theorems -/

namespace Kubetrbl

/-- `(p :: xs).getLast?` with a default: the head only matters when the
tail has no last element. -/
lemma getLast?_getD_cons {α : Type} (p init : α) (xs : List α) :
    ((p :: xs).getLast?).getD init = (xs.getLast?).getD p := by
  induction xs generalizing p init with
  | nil => rfl
  | cons b l ih => rw [List.getLast?_cons_cons, ih, ih]

/-- The container scan is a fold in which each container holding a match
overwrites the accumulator with its first matching port: the result is the
last such match, or the initial value. -/
lemma foldl_scanContainer (tgt : String) (cs : List Container)
    (init : ContainerPort) :
    cs.foldl (scanContainer tgt) init =
      ((cs.filterMap
          (fun c => c.ports.find? (fun p => tgt == p.name))).getLast?).getD
        init := by
  induction cs generalizing init with
  | nil => rfl
  | cons c cs ih =>
      simp only [List.foldl_cons, List.filterMap_cons]
      cases h : c.ports.find? (fun p => tgt == p.name) with
      | none => rw [ih]; simp [scanContainer, h]
      | some p => rw [ih]; simp [scanContainer, h, getLast?_getD_cons]

/-- Claim C1, as stated, is false on the code: with two containers both
exposing a port named "http" (numbers 80 then 81), `getContainerPort`
returns the second container's port 81, not the first container's 80 —
the inner `break` leaves only the inner loop, so a later container's match
overwrites an earlier one. -/
theorem c1_counterexample :
    getContainerPort (.str "http")
        [⟨[⟨"http", 80⟩]⟩, ⟨[⟨"http", 81⟩]⟩] = ⟨"http", 81⟩ ∧
      (getContainerPort (.str "http")
          [⟨[⟨"http", 80⟩]⟩, ⟨[⟨"http", 81⟩]⟩]).containerPort ≠ 80 := by
  constructor <;> decide

/-- Claim C1 amended: `getContainerPort` scans containers in declared
order taking, per container, the first port whose name equals the target
string; matches of later containers overwrite earlier ones, so the result
is the first matching port of the last container having a match (the zero
port when no container matches). -/
theorem c1_last_matching_container_wins (tgtPort : IntOrString)
    (containers : List Container) :
    getContainerPort tgtPort containers =
      ((containers.filterMap
          (fun c =>
            c.ports.find? (fun p => tgtPort.strVal == p.name))).getLast?).getD
        ContainerPort.zero :=
  foldl_scanContainer tgtPort.strVal containers ContainerPort.zero

/-- Claim C5, as stated, is false on the code: with symbolic target "http"
and a single container exposing only a port named "web", the handler does
not fail with NotFound — it leaves the container port at the zero value
(number 0), returns nil, and advances to `getControllerPods`. -/
theorem c5_counterexample :
    getContainerPortStep (.str "http") [⟨[⟨"web", 80⟩]⟩] =
      (ContainerPort.zero, "getControllerPods", none) := by
  decide

/-- Claim C5 amended: when no container exposes a port whose name equals
the symbolic target, `getContainerPort` leaves the port at the Go zero
value (port number 0) and the handler still returns nil and advances to
`getControllerPods`; no NotFound error is produced. -/
theorem c5_no_match_zero_port_advances (tgtPort : IntOrString)
    (containers : List Container)
    (h : ∀ c ∈ containers, ∀ p ∈ c.ports, p.name ≠ tgtPort.strVal) :
    getContainerPortStep tgtPort containers =
      (ContainerPort.zero, "getControllerPods", none) := by
  unfold getContainerPortStep
  rw [getContainerPort, foldl_scanContainer]
  have hall : containers.filterMap
      (fun c => c.ports.find? (fun p => tgtPort.strVal == p.name)) = [] := by
    rw [List.filterMap_eq_nil_iff]
    intro c hc
    rw [List.find?_eq_none]
    intro p hp
    simpa using fun hEq => h c hc p hp hEq.symm
  rw [hall]
  rfl

/-- Witness for the amended C5 at a concrete input. -/
theorem c5_no_match_zero_port_advances_witness :
    (∀ c ∈ [Container.mk [ContainerPort.mk "web" 80]], ∀ p ∈ c.ports,
        p.name ≠ (IntOrString.str "http").strVal) ∧
      getContainerPortStep (.str "http") [⟨[⟨"web", 80⟩]⟩] =
        (ContainerPort.zero, "getControllerPods", none) :=
  ⟨by decide,
   c5_no_match_zero_port_advances (.str "http") [⟨[⟨"web", 80⟩]⟩]
     (by decide)⟩

/-- Claim C6, as stated, is false on the code: with the numeric target
9090 and a container exposing an unnamed port 1234, `getContainerPort`
returns port 1234, not 9090 — the code reads only `TargetPort.StrVal`
(empty for a numeric target) and matches it against port names. -/
theorem c6_counterexample :
    getContainerPort (.int 9090) [⟨[⟨"", 1234⟩]⟩] = ⟨"", 1234⟩ ∧
      (getContainerPort (.int 9090) [⟨[⟨"", 1234⟩]⟩]).containerPort ≠
        9090 := by
  constructor <;> decide

/-- Claim C6 amended: a numeric target is never returned directly; the
handler compares the numeric target's string field — the empty string —
against container port names, behaving exactly as a symbolic target named
"" (so it selects unnamed container ports if any, and the zero port
otherwise; the numeric value itself is ignored). -/
theorem c6_numeric_target_ignored (n : Int) (containers : List Container) :
    getContainerPort (.int n) containers =
      getContainerPort (.str "") containers := rfl

/-- Claim C9: `getControllerPods` returns exactly the pods whose value for
`app.kubernetes.io/name` equals the controller's value for that key, in
snapshot order (a sublist of the snapshot); the handler advances to
`validateContainerPort` with a nil error regardless of the result, the
empty one included. -/
theorem c9_member_pods_filter (controller : Controller) (pods : List Pod) :
    (∀ p, p ∈ getControllerPods controller pods ↔
        p ∈ pods ∧ labelValue p.labels appLabelKey =
          labelValue controller.labels appLabelKey) ∧
      (getControllerPods controller pods).Sublist pods ∧
      getControllerPodsStep controller pods =
        (getControllerPods controller pods, "validateContainerPort",
          none) := by
  refine ⟨fun p => ?_, List.filter_sublist _, rfl⟩
  simp only [getControllerPods, List.mem_filter, beq_iff_eq]
  exact and_congr_right fun _ => eq_comm

/-- Claim C10: a controller carrying no `app.kubernetes.io/name` label
reads the empty string for that key, so (as long as no pod binds that
label to an explicit empty value) `getControllerPods` selects exactly the
pods that also lack the label. -/
theorem c10_unlabeled_controller_matches_unlabeled_pods
    (controller : Controller) (pods : List Pod)
    (h1 : hasLabel controller.labels appLabelKey = false)
    (h2 : ∀ p ∈ pods, p.labels.lookup appLabelKey ≠ some "") :
    getControllerPods controller pods =
      pods.filter (fun p => !(hasLabel p.labels appLabelKey)) := by
  have hc : labelValue controller.labels appLabelKey = "" := by
    unfold hasLabel at h1
    cases hl : controller.labels.lookup appLabelKey with
    | none => simp [labelValue, hl]
    | some v => rw [hl] at h1; simp at h1
  simp only [getControllerPods, hc]
  refine List.filter_congr fun p hp => ?_
  cases hl : p.labels.lookup appLabelKey with
  | none => simp [labelValue, hasLabel, hl]
  | some v =>
      have hv : v ≠ "" := by
        intro hEq
        exact h2 p hp (hEq ▸ hl)
      simp [labelValue, hasLabel, hl]
      exact fun hEq => hv hEq.symm

/-- Witness for C10 at a concrete input: an unlabeled controller, one
unlabeled pod and one labeled pod; the filter keeps only the unlabeled
pod. -/
theorem c10_unlabeled_controller_witness :
    hasLabel (Controller.mk "ctrl" [("team", "x")] []).labels appLabelKey =
        false ∧
      (∀ p ∈ [Pod.mk "p1" [], Pod.mk "p2" [(appLabelKey, "x")]],
          p.labels.lookup appLabelKey ≠ some "") ∧
      getControllerPods ⟨"ctrl", [("team", "x")], []⟩
          [⟨"p1", []⟩, ⟨"p2", [(appLabelKey, "x")]⟩] =
        [Pod.mk "p1" [], Pod.mk "p2" [(appLabelKey, "x")]].filter
          (fun p => !(hasLabel p.labels appLabelKey)) :=
  ⟨by decide, by decide,
   c10_unlabeled_controller_matches_unlabeled_pods
     ⟨"ctrl", [("team", "x")], []⟩
     [⟨"p1", []⟩, ⟨"p2", [(appLabelKey, "x")]⟩] (by decide) (by decide)⟩

/-- Claim C7, as stated, is false on the code: selecting index 7 from a
list of 3 namespaces does not yield a routed OutOfRange input error — the
unchecked slice access `nms.Items[answer]` panics at runtime, crashing the
process, so the select-namespace state is never re-entered. -/
theorem c7_counterexample :
    getNamespace ["ns0", "ns1", "ns2"] (.ok 7) =
      NamespaceStepResult.panicked := by
  decide

/-- Claim C7 amended: a parsed selection index outside the displayed list
(negative included) makes the handler panic with an index-out-of-range
runtime error — no input error is returned or routed and the namespace is
never assigned; only a parse failure of the read line is returned as an
error (routed to the FSM error handler, which re-enters the state). -/
theorem c7_out_of_range_panics (nms : List String) (i : Int) (m : String) :
    (¬(0 ≤ i ∧ i.toNat < nms.length) →
        getNamespace nms (.ok i) = .panicked) ∧
      getNamespace nms (.parseError m) = .inputError m := by
  refine ⟨fun h => ?_, rfl⟩
  simp only [getNamespace]
  rw [dif_neg h]

/-- Witness for the amended C7 at a concrete input. -/
theorem c7_out_of_range_panics_witness :
    ¬((0 : Int) ≤ 7 ∧
        (7 : Int).toNat < (["ns0", "ns1", "ns2"] : List String).length) ∧
      getNamespace ["ns0", "ns1", "ns2"] (.ok 7) = .panicked :=
  ⟨by decide,
   (c7_out_of_range_panics ["ns0", "ns1", "ns2"] 7 "bad").1 (by decide)⟩

/-- Claim C3, as stated, is false on the code: on a probe transport error
the loop body returns the error before `close(stopChan)` runs, so the stop
signal is not issued on that exit path. -/
theorem c3_counterexample :
    probePod "p" ProbeResult.transportError =
        ([PodEvent.checked "p"], false) ∧
      PodEvent.stopSignaled "p" ∉
        (probePod "p" ProbeResult.transportError).1 := by
  constructor <;> decide

/-- Claim C3 amended: the stop signal is issued after a completed probe —
both on success (status < 400) and on an HTTP error status — but on a
probe transport error the handler returns early without signalling the
tunnel to stop. -/
theorem c3_stop_signal_paths (pod : String) (code : Nat) :
    PodEvent.stopSignaled pod ∈ (probePod pod (.status code)).1 ∧
      PodEvent.stopSignaled pod ∉
        (probePod pod ProbeResult.transportError).1 ∧
      (probePod pod ProbeResult.transportError).2 = false := by
  refine ⟨?_, ?_, rfl⟩ <;> simp [probePod]

/-- Each iteration of the validation loop over an all-`status` pod list
contributes its probe events and the loop continues. -/
lemma validateContainerPort_all_probed
    (pods : List (String × ProbeResult))
    (h : ∀ pr ∈ pods, pr.2 ≠ ProbeResult.transportError) :
    validateContainerPort pods =
      (pods.flatMap (fun pr => (probePod pr.1 pr.2).1), true) := by
  induction pods with
  | nil => rfl
  | cons pr rest ih =>
      obtain ⟨pod, r⟩ := pr
      cases r with
      | transportError =>
          exact absurd rfl (h (pod, .transportError) (by simp))
      | status code =>
          have ihr := ih fun q hq => h q (List.mem_cons_of_mem _ hq)
          simp [validateContainerPort, probePod, ihr]

/-- The first transport-errored pod aborts the validation loop: events up
to and including its "checking" line are emitted, then the error is
returned. -/
lemma validateContainerPort_aborts (pre : List (String × ProbeResult))
    (pod : String) (rest : List (String × ProbeResult))
    (h : ∀ pr ∈ pre, pr.2 ≠ ProbeResult.transportError) :
    validateContainerPort
        (pre ++ (pod, ProbeResult.transportError) :: rest) =
      (pre.flatMap (fun pr => (probePod pr.1 pr.2).1) ++
          [PodEvent.checked pod],
        false) := by
  induction pre with
  | nil => rfl
  | cons q pre ih =>
      obtain ⟨qp, qr⟩ := q
      cases qr with
      | transportError =>
          exact absurd rfl (h (qp, .transportError) (by simp))
      | status code =>
          have ihr := ih fun x hx => h x (List.mem_cons_of_mem _ hx)
          simp [validateContainerPort, probePod, ihr]

/-- Claim C4, as stated, is false on the code: with the first pod's probe
failing with a transport error, the loop aborts immediately — the error is
propagated as the handler's pipeline error, the second pod is never
probed, and `finish` is not reached. -/
theorem c4_counterexample :
    validateContainerPort
        [("p1", ProbeResult.transportError), ("p2", ProbeResult.status 200)] =
        ([PodEvent.checked "p1"], false) ∧
      PodEvent.checked "p2" ∉
        (validateContainerPort
            [("p1", ProbeResult.transportError),
              ("p2", ProbeResult.status 200)]).1 := by
  constructor <;> decide

/-- Claim C4 amended: pods are probed in snapshot order; an HTTP error
status (≥ 400) is recorded as that pod's inaccessible outcome and the loop
continues, and `finish` is reached once all candidates are probed — but a
probe request (transport) error is propagated as the pipeline error and
aborts the loop, leaving the remaining candidates unprobed and `finish`
unreached. -/
theorem c4_probe_failure_handling (pods : List (String × ProbeResult)) :
    ((∀ pr ∈ pods, pr.2 ≠ ProbeResult.transportError) →
        validateContainerPort pods =
          (pods.flatMap (fun pr => (probePod pr.1 pr.2).1), true)) ∧
      (∀ pre pod rest,
          pods = pre ++ (pod, ProbeResult.transportError) :: rest →
          (∀ pr ∈ pre, pr.2 ≠ ProbeResult.transportError) →
          validateContainerPort pods =
            (pre.flatMap (fun pr => (probePod pr.1 pr.2).1) ++
                [PodEvent.checked pod],
              false)) ∧
      (∀ pod code, 400 ≤ code →
          probePod pod (.status code) =
            ([.checked pod, .inaccessible pod, .stopSignaled pod],
              true)) := by
  refine ⟨fun h => validateContainerPort_all_probed pods h,
    fun pre pod rest hEq h => ?_, fun pod code h => ?_⟩
  · exact hEq ▸ validateContainerPort_aborts pre pod rest h
  · simp [probePod, Nat.not_lt.mpr h]

/-- Witness for the amended C4: a two-pod list (one success, one HTTP
error) is fully probed and reaches finish; a list whose second pod has a
transport error aborts there. -/
theorem c4_probe_failure_handling_witness :
    validateContainerPort
        [("p1", ProbeResult.status 200), ("p2", ProbeResult.status 503)] =
        ([("p1", ProbeResult.status 200),
            ("p2", ProbeResult.status 503)].flatMap
            (fun pr => (probePod pr.1 pr.2).1),
          true) ∧
      validateContainerPort
          [("p1", ProbeResult.status 200),
            ("p2", ProbeResult.transportError),
            ("p3", ProbeResult.status 200)] =
        ([("p1", ProbeResult.status 200)].flatMap
            (fun pr => (probePod pr.1 pr.2).1) ++
            [PodEvent.checked "p2"],
          false) :=
  ⟨(c4_probe_failure_handling _).1 (by decide),
   (c4_probe_failure_handling _).2.1 [("p1", ProbeResult.status 200)] "p2"
     [("p3", ProbeResult.status 200)] rfl (by decide)⟩

end Kubetrbl

namespace Fsm

/-- A present callback that fails: the invocation event is followed by the
error-handler event. -/
lemma runCallback_some_true (cond : Bool) (ev : Event) (h : cond = true) :
    runCallback cond (some true) ev = [ev, .errorHandled] := by
  simp [runCallback, h]

/-- Claim C2, as stated, is false on the code: with active state "a" whose
Exit fails and registered target "b", `Change("b")` routes the failure to
the error handler but does not abort — the machine ends in state "b" and
"b"'s Enter is invoked. -/
theorem c2_counterexample :
    FSM.change
        ⟨"a",
          [("a", ⟨none, none, some true⟩),
            ("b", ⟨some false, none, none⟩)]⟩ "b" =
      .ok
        ⟨"b",
          [("a", ⟨none, none, some true⟩),
            ("b", ⟨some false, none, none⟩)]⟩
        [.exited "a", .errorHandled, .entered "b"] := by
  decide

/-- Claim C2 amended: when the active state's Exit callback fails,
`Change` routes the failure to the error handler but the transition still
proceeds — provided the target is registered, the current state becomes
the target and its Enter callback (when present) is invoked; Exit runs
exactly once in the call (the trailing events are Enter events only). -/
theorem c2_exit_failure_routed_not_aborted (f : FSM) (t : String)
    (h1 : f.state ≠ "") (h2 : (f.dirGet f.state).exit = some true)
    (h3 : f.hasState t = true) :
    FSM.change f t =
      .ok { f with state := t }
        ([.exited f.state, .errorHandled] ++
          runCallback (t ≠ "") (f.dirGet t).enter (.entered t)) := by
  have hb : (!decide (f.state = "")) = true := by simp [h1]
  have h2x := h2
  simp only [FSM.dirGet] at h2x
  simp [FSM.change, FSM.dirGet, h3, h2x, runCallback_some_true _ _ hb]

/-- Witness for the amended C2 at a concrete machine. -/
theorem c2_exit_failure_routed_not_aborted_witness :
    ((FSM.mk "a"
          [("a", ⟨none, none, some true⟩),
            ("b", ⟨some false, none, none⟩)]).state ≠ "") ∧
      ((FSM.mk "a"
            [("a", ⟨none, none, some true⟩),
              ("b", ⟨some false, none, none⟩)]).dirGet "a").exit =
        some true ∧
      (FSM.mk "a"
          [("a", ⟨none, none, some true⟩),
            ("b", ⟨some false, none, none⟩)]).hasState "b" = true ∧
      FSM.change
          ⟨"a",
            [("a", ⟨none, none, some true⟩),
              ("b", ⟨some false, none, none⟩)]⟩ "b" =
        .ok
          ⟨"b",
            [("a", ⟨none, none, some true⟩),
              ("b", ⟨some false, none, none⟩)]⟩
          ([.exited "a", .errorHandled] ++
            runCallback (("b" : String) ≠ "") (some false) (.entered "b")) :=
  ⟨by decide, by decide, by decide,
   c2_exit_failure_routed_not_aborted
     ⟨"a",
       [("a", ⟨none, none, some true⟩), ("b", ⟨some false, none, none⟩)]⟩
     "b" (by decide) (by decide) (by decide)⟩

/-- Claim C8: `Change` to an unregistered name is fatal — it panics after
running the active state's Exit, it never silently no-ops — while
`Update` with no active state neither panics nor errors: it only prints
the warning. -/
theorem c8_unregistered_fatal_update_warns (f g : FSM) (name : String)
    (h1 : f.hasState name = false) (h2 : g.state = "") :
    FSM.change f name =
        .panicked
          (runCallback (f.state ≠ "") (f.dirGet f.state).exit
            (.exited f.state)) ∧
      FSM.update g = [.warnedNoActive] := by
  constructor
  · simp [FSM.change, h1]
  · simp [FSM.update, h2]

/-- Witness for C8 at a concrete machine. -/
theorem c8_unregistered_fatal_update_warns_witness :
    (FSM.mk "a" [("a", State.zero)]).hasState "missing" = false ∧
      (FSM.mk "" [("a", State.zero)]).state = "" ∧
      (FSM.change ⟨"a", [("a", State.zero)]⟩ "missing" =
          .panicked
            (runCallback (("a" : String) ≠ "") State.zero.exit
              (.exited "a")) ∧
        FSM.update ⟨"", [("a", State.zero)]⟩ = [.warnedNoActive]) :=
  ⟨by decide, rfl,
   c8_unregistered_fatal_update_warns ⟨"a", [("a", State.zero)]⟩
     ⟨"", [("a", State.zero)]⟩ "missing" (by decide) rfl⟩

end Fsm
